import Mathlib

/-!
Verification of the Practice/Quiz Session Engine of the CCNA study-drill
front end (`ccna-tutor/static/js/practice.js`).

The file shallowly embeds the client-side state machines of the two session
variants:

* the **linear practice page** (`practiceState`, `displayQuestion`,
  `submitAnswer`, `tryAgain`, `revealAnswer`, `skipQuestion`, `nextQuestion`
  and their response callbacks), modelled in namespace `Practice`;
* the **concept-group quiz page** (`quizState`, `displayCurrentQuestion`,
  `submitAnswer`, `tryAgain`, `handleDragDropMessage`, `loadMoreFromConcept`,
  `nextTopic`, `restartQuiz`), modelled in namespace `Quiz`.

Modelling conventions:

* The DOM inputs rendered for the current question are modelled as a
  `List ChoiceUI` (letter, `checked` and `disabled` flags, in document
  order); button visibility (`classList.add/remove('d-none')`) and the
  `disabled` property of the submit button are explicit `Bool` fields of a
  UI record.  Purely visual effects (opacity, strike-through, highlight
  colors, progress-bar text) are not modelled.
* Network calls are split in two pure functions: the event handler runs up
  to the `fetch` and returns an `Option` request record (`none` when the
  code returns before fetching), and a separate `...Then` function embeds
  the `.then` response callback, taking the decoded response as an
  inductive datatype.
* A JavaScript `TypeError` (property access on `undefined`/`null`, e.g.
  `currentGroup.question` when the cursor is out of range, or
  `correct_answer.split` when `correct_answer` is absent on a multi-answer
  question) is modelled by returning `none` from an `Option`-valued
  function.
* JavaScript falsiness of `''`, `null`/`undefined` and `0` is modelled
  explicitly at each use site; `x || []` becomes `Option.getD x []`.
* `alert(...)` calls are returned as a `List String` of alert texts.
-/

/-- One rendered answer input (`<input name="answer">` plus its wrapper),
in document order: its choice letter (the `value` attribute), whether it is
checked, and whether it is disabled. -/
structure ChoiceUI where
  letter : String
  checked : Bool
  disabled : Bool
deriving Repr, DecidableEq

/-- The letters of the currently checked inputs, in document order
(`document.querySelectorAll` returns document order; the CSS `:checked`
pseudo-class also matches disabled inputs). -/
def checkedLetters (choices : List ChoiceUI) : List String :=
  (choices.filter (fun c => c.checked)).map (fun c => c.letter)

/-- The JavaScript default string comparison (code-unit lexicographic),
modelled as the lexicographic order on the strings' character lists
(`String.le_iff_toList_le`: this is the same order as `≤` on `String`,
stated on `.data` so that it evaluates inside the kernel). -/
def strLe (a b : String) : Prop :=
  a.data ≤ b.data

instance : DecidableRel strLe :=
  fun a b => inferInstanceAs (Decidable (a.data ≤ b.data))

instance : IsTotal String strLe :=
  ⟨fun x y => le_total x.data y.data⟩

instance : IsTrans String strLe :=
  ⟨fun _ _ _ h h' => le_trans h h'⟩

instance : IsAntisymm String strLe :=
  ⟨fun _ _ h h' => String.ext (le_antisymm h h')⟩

/-- `Array.from(...).map(el => el.value).sort().join(',')` — the checked
letters sorted lexicographically (JavaScript default sort is string
comparison, stable) and joined by commas.  Used by both submit handlers to
canonicalize a multi-select answer. -/
def jsSortJoin (l : List String) : String :=
  String.intercalate "," (List.insertionSort strLe l)

/-- Rendering of a question's choice map: `Object.entries(choices)` sorted
by letter (`localeCompare`), each becoming a fresh enabled, unchecked
input. -/
def renderChoices (choices : List (String × String)) : List ChoiceUI :=
  (List.insertionSort (fun a b => strLe a.1 b.1) choices).map
    (fun p => { letter := p.1, checked := false, disabled := false })

namespace Practice

/-- A question as delivered to the practice page (`displayQuestion` reads
`question_number`, `question_text`, `choices`, `multi_answer`, and
`submitAnswer` reads `id`).  The practice page never receives the correct
answer. -/
structure Question where
  id : String
  question_number : Nat
  question_text : String
  choices : List (String × String)
  multi_answer : Bool
deriving Repr, DecidableEq

/-- The module-level `practiceState` object (practice.js lines 16–27). -/
structure State where
  protocolSlug : String
  totalQuestions : Nat
  currentQuestion : Option Question
  questionNumber : Nat
  correctCount : Nat
  incorrectCount : Nat
  skippedCount : Nat
  attemptNumber : Nat
  disabledChoices : List String
  canReveal : Bool
deriving Repr, DecidableEq

/-- The initial `practiceState` literal. -/
def initialState : State :=
  { protocolSlug := "", totalQuestions := 0, currentQuestion := none,
    questionNumber := 0, correctCount := 0, incorrectCount := 0,
    skippedCount := 0, attemptNumber := 0, disabledChoices := [],
    canReveal := false }

/-- The DOM state of the practice page that the engine reads and writes:
the rendered answer inputs and the visibility/enabledness of the buttons
and panels (`d-none` toggles and the submit button's `disabled`
property). -/
structure UI where
  choices : List ChoiceUI
  submitHidden : Bool
  submitDisabled : Bool
  skipHidden : Bool
  tryAgainHidden : Bool
  revealHidden : Bool
  nextHidden : Bool
  loadingHidden : Bool
  feedbackHidden : Bool
deriving Repr, DecidableEq

/-- `displayQuestion(questionData)`: installs the new question, resets the
per-question attempt state (`attemptNumber = 0`, `disabledChoices = []`,
`canReveal = false`), renders fresh choices (enabled, unchecked), shows
submit (disabled until a selection) and skip, hides feedback, loading, try
again, reveal and next. -/
def displayQuestion (q : Question) (s : State) : State × UI :=
  ({ s with currentQuestion := some q, questionNumber := q.question_number,
            attemptNumber := 0, disabledChoices := [], canReveal := false },
   { choices := renderChoices q.choices,
     submitHidden := false, submitDisabled := true, skipHidden := false,
     tryAgainHidden := true, revealHidden := true, nextHidden := true,
     loadingHidden := true, feedbackHidden := true })

/-- A user click on the (enabled) input for `letter`: a checkbox toggles,
a radio checks itself and unchecks the others; the `change` listener then
enables the submit button (lines 105–110). -/
def clickChoice (isMulti : Bool) (letter : String) (ui : UI) : UI :=
  { ui with
    choices := ui.choices.map (fun c =>
      if c.letter = letter then { c with checked := if isMulti then !c.checked else true }
      else if isMulti then c else { c with checked := false }),
    submitDisabled := false }

/-- The body of a `/practice/check-answer` request. -/
structure CheckRequest where
  question_id : String
  selected_answer : String
deriving Repr, DecidableEq

/-- `submitAnswer()` up to the `fetch` (lines 133–170).  Collects the
selection (multi: checked letters sorted and comma-joined; single: the
first checked input's value), returns with no request when the resulting
value is falsy, otherwise shows the loading indicator, hides
submit/skip/try-again/reveal, disables every input, and issues the
check-answer request.  `none` models the `TypeError` thrown when
`currentQuestion` is `null`. -/
def submitAnswer (s : State) (ui : UI) : Option (State × UI × Option CheckRequest) :=
  match s.currentQuestion with
  | none => none
  | some q =>
    let selected : Option String :=
      if q.multi_answer then
        let v := jsSortJoin (checkedLetters ui.choices)
        if v = "" then none else some v
      else
        (checkedLetters ui.choices).head?.bind
          (fun v => if v = "" then none else some v)
    match selected with
    | none => some (s, ui, none)
    | some v =>
      some (s,
        { ui with loadingHidden := false, submitHidden := true,
                  skipHidden := true, tryAgainHidden := true, revealHidden := true,
                  choices := ui.choices.map (fun c => { c with disabled := true }) },
        some { question_id := q.id, selected_answer := v })

/-- A decoded `/practice/check-answer` response. -/
inductive CheckData where
  | error (msg : String)
  | correct (feedback : String) (correct_answer : String)
  | incorrect (attempt : Nat) (can_reveal : Bool)
      (disabled_choices : Option (List String)) (feedback : String)
deriving Repr, DecidableEq

/-- `applyDisabledChoices(disabledLetters)` (lines 361–374): every input
whose letter is in the list is disabled and unchecked. -/
def applyDisabledChoices (letters : List String) (choices : List ChoiceUI) : List ChoiceUI :=
  choices.map (fun c =>
    if letters.contains c.letter then { c with disabled := true, checked := false } else c)

/-- The `.then` callback of `submitAnswer`'s fetch (lines 172–210): hides
the loading indicator; on an error payload shows the error feedback and
re-shows skip; on `correct` increments `correctCount` and shows next; on
incorrect stores `attempt`, `can_reveal` and `disabled_choices || []`,
greys out the listed choices, shows try-again and (when `can_reveal`)
reveal. -/
def submitAnswerThen (d : CheckData) (s : State) (ui : UI) : State × UI :=
  let ui := { ui with loadingHidden := true }
  match d with
  | .error _ => (s, { ui with feedbackHidden := false, skipHidden := false })
  | .correct _ _ =>
      ({ s with correctCount := s.correctCount + 1 },
       { ui with feedbackHidden := false, nextHidden := false })
  | .incorrect attempt can_reveal dcs _ =>
      let s' := { s with attemptNumber := attempt, canReveal := can_reveal,
                         disabledChoices := dcs.getD [] }
      (s',
       { ui with feedbackHidden := false,
                 choices := applyDisabledChoices s'.disabledChoices ui.choices,
                 tryAgainHidden := false,
                 revealHidden := if can_reveal then false else ui.revealHidden })

/-- `tryAgain()` (lines 218–236): hides feedback, try-again and reveal,
re-shows submit (disabled) and skip, re-enables every input whose letter
is not in `disabledChoices`, and unchecks every input. -/
def tryAgain (s : State) (ui : UI) : State × UI :=
  (s,
   { ui with
     feedbackHidden := true, tryAgainHidden := true, revealHidden := true,
     submitHidden := false, submitDisabled := true, skipHidden := false,
     choices := ui.choices.map (fun c =>
       if s.disabledChoices.contains c.letter then { c with checked := false }
       else { c with disabled := false, checked := false }) })

/-- The body of a `/practice/explain` request. -/
structure RevealRequest where
  question_id : String
deriving Repr, DecidableEq

/-- `revealAnswer()` up to the `fetch` (lines 238–249): shows the loading
indicator, hides try-again and reveal, and issues the explain request.
`none` models the `TypeError` when `currentQuestion` is `null`. -/
def revealAnswer (s : State) (ui : UI) : Option (State × UI × RevealRequest) :=
  match s.currentQuestion with
  | none => none
  | some q =>
      some (s,
        { ui with loadingHidden := false, tryAgainHidden := true, revealHidden := true },
        { question_id := q.id })

/-- A decoded `/practice/explain` response. -/
inductive RevealData where
  | error (msg : String)
  | success (correct_answer : String) (correct_answer_text : String) (feedback : String)
deriving Repr, DecidableEq

/-- The `.then` callback of `revealAnswer`'s fetch (lines 251–269): hides
loading; on error shows error feedback only; on success increments
`incorrectCount`, shows the revealed answer and the next button. -/
def revealAnswerThen (d : RevealData) (s : State) (ui : UI) : State × UI :=
  let ui := { ui with loadingHidden := true }
  match d with
  | .error _ => (s, { ui with feedbackHidden := false })
  | .success _ _ _ =>
      ({ s with incorrectCount := s.incorrectCount + 1 },
       { ui with feedbackHidden := false, nextHidden := false })

/-- The body of a `/practice/skip` request. -/
structure SkipRequest where
  question_id : String
deriving Repr, DecidableEq

/-- `skipQuestion()` up to the `fetch` (lines 277–284); `none` models the
`TypeError` when `currentQuestion` is `null`. -/
def skipQuestion (s : State) (ui : UI) : Option (State × UI × SkipRequest) :=
  match s.currentQuestion with
  | none => none
  | some q => some (s, ui, { question_id := q.id })

/-- A decoded `/practice/skip` response: `done` covers both `data.done`
and a missing `next_question`. -/
inductive SkipData where
  | error (msg : String)
  | done
  | next (total_questions : Nat) (next_question : Question)
deriving Repr, DecidableEq

/-- The `.then` callback of `skipQuestion`'s fetch (lines 286–300): on
error shows error feedback; otherwise increments `skippedCount`, then
either navigates to the summary (`Bool` result) or displays the next
question.  -/
def skipQuestionThen (d : SkipData) (s : State) (ui : UI) : State × UI × Bool :=
  match d with
  | .error _ => (s, { ui with feedbackHidden := false }, false)
  | .done => ({ s with skippedCount := s.skippedCount + 1 }, ui, true)
  | .next total q =>
      let s' := { s with skippedCount := s.skippedCount + 1, totalQuestions := total }
      let r := displayQuestion q s'
      (r.1, r.2, false)

/-- A decoded `/practice/next` response. -/
inductive NextData where
  | error (msg : String)
  | done
  | next (question : Question)
deriving Repr, DecidableEq

/-- The `.then` callback of `nextQuestion`'s fetch (lines 312–323). -/
def nextQuestionThen (d : NextData) (s : State) (ui : UI) : State × UI × Bool :=
  match d with
  | .error _ => (s, { ui with feedbackHidden := false }, false)
  | .done => (s, ui, true)
  | .next q =>
      let r := displayQuestion q s
      (r.1, r.2, false)

end Practice

namespace Quiz

/-- A question as held by a concept group on the quiz page.  `dtype`
models the JS `type` field and `question_type` the JS `question_type`
field (drag-drop detection checks both); `correct_answer` is optional —
the quiz page derives the multi-answer selection count from it. -/
structure Question where
  id : Nat
  question_text : String
  choices : List (String × String)
  multi_answer : Bool
  correct_answer : Option String
  dtype : Option String
  question_type : Option String
deriving Repr, DecidableEq

/-- `question.type === 'drag_drop' || question.question_type === 'drag_drop'`
(line 707). -/
def isDragDrop (q : Question) : Bool :=
  q.dtype == some "drag_drop" || q.question_type == some "drag_drop"

/-- `question.multi_answer || (question.correct_answer &&
question.correct_answer.includes(','))` (lines 715, 883).  A missing
`correct_answer` is falsy; an empty one is falsy too, and contains no
comma, so `.data.contains ','` (stated on the character list so that it
evaluates in the kernel) gives the same boolean. -/
def isMultiAnswer (q : Question) : Bool :=
  q.multi_answer ||
    (match q.correct_answer with
     | some s => s.data.contains ','
     | none => false)

/-- `isMultiAnswer ? question.correct_answer.split(',').length : 1`
(lines 716, 884), with `split(',')` modelled on the character list
(`List.splitOn` at every comma gives the same piece count); `none` models
the `TypeError` thrown when `correct_answer` is absent on a
`multi_answer` question. -/
def numCorrectOf (q : Question) : Option Nat :=
  if isMultiAnswer q then
    q.correct_answer.map (fun s => (s.data.splitOn ',').length)
  else
    some 1

/-- A concept group as held in `quizState.conceptGroups`:
`seen_questions` is absent until the first successful
more-from-this-concept fetch sets it. -/
structure ConceptGroup where
  group_id : String
  concept : String
  question : Question
  seen_questions : Option (List Nat)
deriving Repr, DecidableEq

/-- An entry of `quizState.scores`: `{firstAttemptCorrect, attempts, concept}`. -/
structure Outcome where
  firstAttemptCorrect : Bool
  attempts : Nat
  concept : String
deriving Repr, DecidableEq

/-- JS object-property assignment `scores[k] = v`: replaces the binding in
place when the key is present, otherwise appends it. -/
def setScore : List (String × Outcome) → String → Outcome → List (String × Outcome)
  | [], k, v => [(k, v)]
  | (k', v') :: rest, k, v =>
      if k' = k then (k, v) :: rest else (k', v') :: setScore rest k v

/-- The module-level `quizState` object (lines 586–596).
`dragDropWindow` is `none` when the handle is `null`, `some b` when a
window handle exists with `b` = the window is still open. -/
structure State where
  sessionId : Option String
  protocol : Option String
  conceptGroups : List ConceptGroup
  currentIndex : Nat
  attemptNumber : Nat
  scores : List (String × Outcome)
  totalConcepts : Nat
  dragDropWindow : Option Bool
  dragDropQuestions : List Nat
deriving Repr, DecidableEq

/-- `if (quizState.dragDropWindow && !quizState.dragDropWindow.closed)
quizState.dragDropWindow.close()` — the handle is kept but the window is
now closed. -/
def closePopup (s : State) : State :=
  { s with dragDropWindow := s.dragDropWindow.map (fun _ => false) }

/-- The DOM state of the quiz page the engine reads and writes.  A
drag-drop question's `answerChoices` panel holds a launch button instead
of inputs, modelled as `choices := []`. -/
structure UI where
  choices : List ChoiceUI
  submitHidden : Bool
  tryAgainHidden : Bool
  moreConceptHidden : Bool
  nextTopicHidden : Bool
  feedbackHidden : Bool
deriving Repr, DecidableEq

/-- `showSummary()` (lines 1017–1055): closes the drag-drop popup and
renders the client-side summary (rendering not modelled). -/
def showSummary (s : State) : State :=
  closePopup s

/-- `displayCurrentQuestion()` (lines 698–751): with no current group it
shows the summary (`Bool` result `true`); a drag-drop question shows the
launch panel, hides submit/try-again/more and shows "Skip to Next Topic"
— without resetting `attemptNumber` (the function returns early); a
choice question renders fresh inputs, hides feedback and all buttons but
submit, and resets `attemptNumber` to 1.  `none` models the `TypeError`
from `numCorrectOf` on a malformed multi-answer question. -/
def displayCurrentQuestion (s : State) (ui : UI) : Option (State × UI × Bool) :=
  match s.conceptGroups.get? s.currentIndex with
  | none => some (showSummary s, ui, true)
  | some g =>
    let q := g.question
    if isDragDrop q then
      some (s,
        { ui with choices := [], feedbackHidden := true, submitHidden := true,
                  tryAgainHidden := true, moreConceptHidden := true,
                  nextTopicHidden := false },
        false)
    else
      match numCorrectOf q with
      | none => none
      | some _ =>
        some ({ s with attemptNumber := 1 },
          { ui with choices := renderChoices q.choices, feedbackHidden := true,
                    submitHidden := false, tryAgainHidden := true,
                    moreConceptHidden := true, nextTopicHidden := true },
          false)

/-- The body of a `/api/quiz/submit` request (lines 899–905). -/
structure SubmitRequest where
  session_id : Option String
  question_id : Nat
  student_answer : String
  attempt_number : Nat
  group_id : String
deriving Repr, DecidableEq

/-- `submitAnswer()` up to the `fetch` (lines 875–906): with no checked
input it alerts and returns; a multi-answer selection whose size differs
from the correct answer's letter count alerts with the exact required
count and returns — before any input is disabled and with no request
made; otherwise the canonical sorted comma-joined answer is built, every
input is disabled, and the submit request is issued.  `none` models the
`TypeError` on a missing current group or missing `correct_answer` of a
multi-answer question. -/
def submitAnswer (s : State) (ui : UI) :
    Option (State × UI × Option SubmitRequest × List String) :=
  let selectedLetters := checkedLetters ui.choices
  if selectedLetters.length = 0 then
    some (s, ui, none, ["Please select an answer"])
  else
    match s.conceptGroups.get? s.currentIndex with
    | none => none
    | some g =>
      match numCorrectOf g.question with
      | none => none
      | some numCorrect =>
        if isMultiAnswer g.question && selectedLetters.length != numCorrect then
          some (s, ui, none,
            ["Please select exactly " ++ toString numCorrect ++ " answers"])
        else
          some (s,
            { ui with choices := ui.choices.map (fun c => { c with disabled := true }) },
            some { session_id := s.sessionId, question_id := g.question.id,
                   student_answer := jsSortJoin selectedLetters,
                   attempt_number := s.attemptNumber, group_id := g.group_id },
            [])

/-- A decoded `/api/quiz/submit` response. -/
inductive SubmitData where
  | error (msg : String)
  | correct (explanation : String) (more_in_group : Nat)
  | incorrect (hint : String) (attempt : Nat)
deriving Repr, DecidableEq

/-- The `.then` callback of `submitAnswer`'s fetch (lines 908–945), with
`g` the `currentGroup` captured by the closure: on error, alert only; on
correct, record the group outcome **only if none is stored yet**
(`if (!quizState.scores[currentGroup.group_id])`), hide submit, show
more-from-concept when alternatives remain and show next-topic; on
incorrect, set `attemptNumber` to `data.attempt + 1` and show
try-again. -/
def submitAnswerThen (g : ConceptGroup) (d : SubmitData) (s : State) (ui : UI) :
    State × UI × List String :=
  match d with
  | .error msg => (s, ui, ["Error: " ++ msg])
  | .correct _ more_in_group =>
      let s' :=
        if (s.scores.lookup g.group_id).isNone then
          let outcome : Outcome :=
            { firstAttemptCorrect := s.attemptNumber == 1,
              attempts := s.attemptNumber, concept := g.concept }
          { s with scores := setScore s.scores g.group_id outcome }
        else s
      (s',
       { ui with feedbackHidden := false, submitHidden := true,
                 moreConceptHidden := if more_in_group > 0 then false else ui.moreConceptHidden,
                 nextTopicHidden := false },
       [])
  | .incorrect _ attempt =>
      ({ s with attemptNumber := attempt + 1 },
       { ui with feedbackHidden := false, submitHidden := true, tryAgainHidden := false },
       [])

/-- `tryAgain()` (lines 951–959): re-enables **every** input, unchecks
them all, hides feedback and try-again, re-shows submit. -/
def tryAgain (s : State) (ui : UI) : State × UI :=
  (s,
   { ui with
     choices := ui.choices.map (fun c => { c with disabled := false, checked := false }),
     feedbackHidden := true, tryAgainHidden := true, submitHidden := false })

/-- A `postMessage` payload received by `handleDragDropMessage`:
`isDragDropComplete` is `data && data.type === 'dragDropComplete'`. -/
structure DragDropMessage where
  isDragDropComplete : Bool
  correct : Bool
  questionId : Nat
deriving Repr, DecidableEq

/-- `handleDragDropMessage(event)` (lines 819–873): ignores non-completion
messages; returns unchanged when there is no current group
(`if (!currentGroup) return`) — the **only** staleness guard, the
referenced `questionId` is never compared against the current group; on
`correct` **unconditionally** stores an outcome for the current group and
shows next-topic; otherwise increments `attemptNumber` and shows
skip-to-next-topic. -/
def handleDragDropMessage (msg : DragDropMessage) (s : State) (ui : UI) : State × UI :=
  if !msg.isDragDropComplete then (s, ui)
  else
    match s.conceptGroups.get? s.currentIndex with
    | none => (s, ui)
    | some g =>
      if msg.correct then
        let outcome : Outcome :=
          { firstAttemptCorrect := s.attemptNumber == 1,
            attempts := s.attemptNumber, concept := g.concept }
        ({ s with scores := setScore s.scores g.group_id outcome },
         { ui with feedbackHidden := false, choices := [],
                   submitHidden := true, tryAgainHidden := true,
                   moreConceptHidden := true, nextTopicHidden := false })
      else
        ({ s with attemptNumber := s.attemptNumber + 1 },
         { ui with feedbackHidden := false, choices := [], nextTopicHidden := false })

/-- `nextTopic()` (lines 989–1005): closes the popup, increments the
cursor, re-enables all inputs, then either shows the summary (cursor past
the last group) or displays the new current question. -/
def nextTopic (s : State) (ui : UI) : Option (State × UI × Bool) :=
  let s := closePopup s
  let s := { s with currentIndex := s.currentIndex + 1 }
  let ui := { ui with choices := ui.choices.map (fun c => { c with disabled := false }) }
  if s.conceptGroups.length ≤ s.currentIndex then
    some (showSummary s, ui, true)
  else
    displayCurrentQuestion s ui

/-- The request of `loadMoreFromConcept()` (lines 961–964):
`/api/quiz/group-question/<group_id>?session_id=<sid>&exclude=<seen ids>`
with the exclusion list taken from `currentGroup.seen_questions || []`.
`none` models the `TypeError` on a missing current group. -/
structure MoreRequest where
  group_id : String
  session_id : Option String
  exclude : List Nat
deriving Repr, DecidableEq

/-- `loadMoreFromConcept()` up to the `fetch`. -/
def loadMoreFromConcept (s : State) : Option MoreRequest :=
  (s.conceptGroups.get? s.currentIndex).map (fun g =>
    { group_id := g.group_id, session_id := s.sessionId,
      exclude := g.seen_questions.getD [] })

/-- A decoded `/api/quiz/group-question` response: an error payload with
`all_covered` set, a plain error, or a fresh question. -/
inductive MoreData where
  | errorAllCovered (msg : String)
  | error (msg : String)
  | success (question : Question)
deriving Repr, DecidableEq

/-- The `.then` callback of `loadMoreFromConcept`'s fetch (lines 965–983):
an `all_covered` error alerts the coverage acknowledgment and calls
`nextTopic()`; a plain error alerts it; a fresh question replaces the
current group's question, appends its id to the group's seen list,
re-enables all inputs and re-displays.  The outer `Option` models the
`TypeError`s of the underlying calls. -/
def loadMoreFromConceptThen (d : MoreData) (s : State) (ui : UI) :
    Option (State × UI × Bool × List String) :=
  match s.conceptGroups.get? s.currentIndex with
  | none => none
  | some g =>
    match d with
    | .errorAllCovered _ =>
        (nextTopic s ui).map (fun r =>
          (r.1, r.2.1, r.2.2, ["You have answered all questions in this concept group!"]))
    | .error msg => some (s, ui, false, ["Error: " ++ msg])
    | .success q =>
        let g' := { g with question := q,
                           seen_questions := some (g.seen_questions.getD [] ++ [q.id]) }
        let s' := { s with conceptGroups := s.conceptGroups.set s.currentIndex g' }
        let ui' := { ui with choices := ui.choices.map (fun c => { c with disabled := false }) }
        (displayCurrentQuestion s' ui').map (fun r => (r.1, r.2.1, r.2.2, []))

/-- `restartQuiz()` (lines 1057–1076): closes the popup, then replaces
`quizState` with a fresh literal that preserves only the already-fetched
`dragDropQuestions` catalog. -/
def restartQuiz (s : State) : State :=
  { sessionId := none, protocol := none, conceptGroups := [], currentIndex := 0,
    attemptNumber := 1, scores := [], totalConcepts := 0,
    dragDropWindow := none, dragDropQuestions := s.dragDropQuestions }

end Quiz

/-! ## Frame helper lemmas -/

/-- `displayCurrentQuestion` never touches the outcome map, the cursor or
the concept-group list (it only resets `attemptNumber`, closes the popup
on the summary branch, and rewrites the DOM). -/
theorem displayCurrentQuestion_frame {s : Quiz.State} {ui : Quiz.UI}
    (r : Quiz.State × Quiz.UI × Bool) (h : Quiz.displayCurrentQuestion s ui = some r) :
    r.1.scores = s.scores ∧ r.1.currentIndex = s.currentIndex
      ∧ r.1.conceptGroups = s.conceptGroups := by
  unfold Quiz.displayCurrentQuestion at h
  dsimp only [] at h
  split at h
  · cases h
    exact ⟨rfl, rfl, rfl⟩
  · split at h
    · cases h
      exact ⟨rfl, rfl, rfl⟩
    · split at h
      · cases h
      · cases h
        exact ⟨rfl, rfl, rfl⟩

/-- Scores component of `displayCurrentQuestion_frame`. -/
theorem displayCurrentQuestion_scores {s : Quiz.State} {ui : Quiz.UI}
    (r : Quiz.State × Quiz.UI × Bool) (h : Quiz.displayCurrentQuestion s ui = some r) :
    r.1.scores = s.scores :=
  (displayCurrentQuestion_frame r h).1

/-- `nextTopic` advances the cursor by exactly one and never touches the
outcome map or the concept-group list. -/
theorem nextTopic_frame {s : Quiz.State} {ui : Quiz.UI}
    (r : Quiz.State × Quiz.UI × Bool) (h : Quiz.nextTopic s ui = some r) :
    r.1.scores = s.scores ∧ r.1.currentIndex = s.currentIndex + 1
      ∧ r.1.conceptGroups = s.conceptGroups := by
  unfold Quiz.nextTopic at h
  dsimp only [] at h
  split at h
  · cases h
    exact ⟨rfl, rfl, rfl⟩
  · exact displayCurrentQuestion_frame r h

/-- Scores component of `nextTopic_frame`. -/
theorem nextTopic_scores {s : Quiz.State} {ui : Quiz.UI}
    (r : Quiz.State × Quiz.UI × Bool) (h : Quiz.nextTopic s ui = some r) :
    r.1.scores = s.scores :=
  (nextTopic_frame r h).1

section Claims

/-- C8: the normalized multi-select answer is the checked letters sorted
lexicographically and joined by commas, so any two selections of the same
letters — in any click order — produce the identical submitted string,
and both submit handlers send exactly this normalization of the checked
letters. -/
theorem C8_theorem :
    (∀ l₁ l₂ : List String, l₁.Perm l₂ → jsSortJoin l₁ = jsSortJoin l₂)
    ∧ (∀ (s : Practice.State) (ui : Practice.UI) (q : Practice.Question)
        (r : Practice.State × Practice.UI × Option Practice.CheckRequest)
        (req : Practice.CheckRequest),
        s.currentQuestion = some q → q.multi_answer = true →
        Practice.submitAnswer s ui = some r → r.2.2 = some req →
        req.selected_answer = jsSortJoin (checkedLetters ui.choices))
    ∧ (∀ (s : Quiz.State) (ui : Quiz.UI)
        (r : Quiz.State × Quiz.UI × Option Quiz.SubmitRequest × List String)
        (req : Quiz.SubmitRequest),
        Quiz.submitAnswer s ui = some r → r.2.2.1 = some req →
        req.student_answer = jsSortJoin (checkedLetters ui.choices)) := by
  refine ⟨?_, ?_, ?_⟩
  · intro l₁ l₂ h
    unfold jsSortJoin
    congr 1
    exact List.eq_of_perm_of_sorted
      ((List.perm_insertionSort strLe l₁).trans
        (h.trans (List.perm_insertionSort strLe l₂).symm))
      (List.sorted_insertionSort strLe l₁) (List.sorted_insertionSort strLe l₂)
  · intro s ui q r req hq hm h hr
    unfold Practice.submitAnswer at h
    rw [hq] at h
    simp only [hm, if_true] at h
    split at h
    · cases h
      cases hr
    · rename_i v hv
      split at hv
      · cases hv
      · cases h
        cases hv
        cases hr
        rfl
  · intro s ui r req h hr
    unfold Quiz.submitAnswer at h
    dsimp only [] at h
    split at h
    · cases h
      cases hr
    · split at h
      · cases h
      · split at h
        · cases h
        · split at h
          · cases h
            cases hr
          · cases h
            cases hr
            rfl

/-- C8 witness: the selections c-then-a and a-then-c normalize to the same
string. -/
theorem C8_witness : jsSortJoin ["c", "a"] = jsSortJoin ["a", "c"] :=
  C8_theorem.1 ["c", "a"] ["a", "c"] (by decide)

/-- A multi-select practice-page question (the practice page never
receives the correct answer, so any required selection count is server
knowledge only). -/
def c1Question : Practice.Question :=
  { id := "p7", question_number := 1, question_text := "pick two",
    choices := [("a", "A"), ("b", "B"), ("c", "C"), ("d", "D")],
    multi_answer := true }

/-- The practice page showing `c1Question`. -/
def c1State : Practice.State :=
  (Practice.displayQuestion c1Question Practice.initialState).1

/-- The rendered choices of `c1Question` with only the single box `a`
ticked. -/
def c1UIone : Practice.UI :=
  Practice.clickChoice true "a" (Practice.displayQuestion c1Question Practice.initialState).2

/-- C1 counterexample: on the practice page, a multi-select submission
with exactly ONE box ticked is not rejected locally — `submitAnswer`
performs no count validation at all (it has no correct answer to count
against) and issues the check-answer network request.  For every
multi-select question whose correct answer has two or more letters this
contradicts the claim that a submission with a differing count is
rejected locally with no network request. -/
theorem C1_counterexample :
    c1Question.multi_answer = true
    ∧ (checkedLetters c1UIone.choices).length = 1
    ∧ (Practice.submitAnswer c1State c1UIone).map (fun r => r.2.2)
        = some (some { question_id := "p7", selected_answer := "a" }) := by
  decide

/-- C1 amended: only the quiz page enforces the selection count for
multi-select questions: a non-empty selection whose size differs from the
correct answer's letter count is rejected locally (alert with the exact
required count, state and inputs untouched, no request), and a selection
of exactly the required count disables the inputs and proceeds to the
check-answer request; the practice page performs no count validation and
submits any non-empty selection. -/
theorem C1_theorem (s : Quiz.State) (ui : Quiz.UI) (g : Quiz.ConceptGroup) (n : Nat)
    (hg : s.conceptGroups.get? s.currentIndex = some g)
    (hm : Quiz.isMultiAnswer g.question = true)
    (hn : Quiz.numCorrectOf g.question = some n)
    (hne : (checkedLetters ui.choices).length ≠ 0) :
    ((checkedLetters ui.choices).length ≠ n →
      Quiz.submitAnswer s ui =
        some (s, ui, none, ["Please select exactly " ++ toString n ++ " answers"]))
    ∧ ((checkedLetters ui.choices).length = n →
      Quiz.submitAnswer s ui =
        some (s,
          { ui with choices := ui.choices.map (fun c => { c with disabled := true }) },
          some { session_id := s.sessionId, question_id := g.question.id,
                 student_answer := jsSortJoin (checkedLetters ui.choices),
                 attempt_number := s.attemptNumber, group_id := g.group_id },
          [])) := by
  rw [List.get?_eq_getElem?] at hg
  constructor <;> intro hcount
  · simp [Quiz.submitAnswer, hg, hn, hm, hne, hcount]
  · have hne' : n ≠ 0 := hcount ▸ hne
    simp [Quiz.submitAnswer, hg, hn, hm, hcount, hne']

/-- A quiz-page concept group holding a two-letter multi-select
question. -/
def c1Group : Quiz.ConceptGroup :=
  { group_id := "g1", concept := "acl wildcards",
    question :=
      { id := 41, question_text := "pick two",
        choices := [("a", "A"), ("b", "B"), ("c", "C")],
        multi_answer := false, correct_answer := some "a,c",
        dtype := none, question_type := none },
    seen_questions := none }

/-- A quiz session currently showing `c1Group`. -/
def c1QuizState : Quiz.State :=
  { sessionId := some "s1", protocol := some "acl", conceptGroups := [c1Group],
    currentIndex := 0, attemptNumber := 1, scores := [], totalConcepts := 1,
    dragDropWindow := none, dragDropQuestions := [] }

/-- The rendered quiz choices with only box `a` ticked. -/
def c1QuizUIone : Quiz.UI :=
  { choices := [⟨"a", true, false⟩, ⟨"b", false, false⟩, ⟨"c", false, false⟩],
    submitHidden := false, tryAgainHidden := true, moreConceptHidden := true,
    nextTopicHidden := true, feedbackHidden := true }

/-- C1 witness: a 1-of-2 selection on the quiz page is rejected locally
with the exact-count alert and no request. -/
theorem C1_witness :
    Quiz.submitAnswer c1QuizState c1QuizUIone =
      some (c1QuizState, c1QuizUIone, none, ["Please select exactly " ++ toString 2 ++ " answers"]) :=
  (C1_theorem c1QuizState c1QuizUIone c1Group 2
    (by decide) (by decide) (by decide) (by decide)).1 (by decide)

/-- A drag-and-drop question (quiz page). -/
def c2Question : Quiz.Question :=
  { id := 7, question_text := "match the terms",
    choices := [], multi_answer := false, correct_answer := none,
    dtype := some "drag_drop", question_type := none }

/-- The concept group holding `c2Question`. -/
def c2Group : Quiz.ConceptGroup :=
  { group_id := "g1", concept := "vlan tagging", question := c2Question,
    seen_questions := none }

/-- A quiz session at `c2Group`, first attempt, no outcome stored yet. -/
def c2State0 : Quiz.State :=
  { sessionId := some "s1", protocol := some "vlan", conceptGroups := [c2Group],
    currentIndex := 0, attemptNumber := 1, scores := [], totalConcepts := 1,
    dragDropWindow := some true, dragDropQuestions := [7] }

/-- The waiting-for-popup panel for `c2Question`. -/
def c2UI : Quiz.UI :=
  { choices := [], submitHidden := true, tryAgainHidden := true,
    moreConceptHidden := true, nextTopicHidden := false, feedbackHidden := true }

/-- Session after a first, successful completion message: the outcome
record for `g1` is stored. -/
def c2State1 : Quiz.State :=
  (Quiz.handleDragDropMessage ⟨true, true, 7⟩ c2State0 c2UI).1

/-- Session after the student reopens the popup and closes it without
solving: a failure completion message increments the attempt counter. -/
def c2State2 : Quiz.State :=
  (Quiz.handleDragDropMessage ⟨true, false, 7⟩ c2State1 c2UI).1

/-- Session after a second successful completion message for the same,
still-current group. -/
def c2State3 : Quiz.State :=
  (Quiz.handleDragDropMessage ⟨true, true, 7⟩ c2State2 c2UI).1

/-- C2 counterexample: after the group's outcome
`{firstAttemptCorrect := true, attempts := 1}` has been stored, a later
correct drag-and-drop completion for the same session replaces it with
`{firstAttemptCorrect := false, attempts := 2}` —
`handleDragDropMessage` writes the score unconditionally, unlike the
guarded quiz submit path. -/
theorem C2_counterexample :
    c2State1.scores.lookup "g1"
        = some { firstAttemptCorrect := true, attempts := 1, concept := "vlan tagging" }
    ∧ c2State3.scores.lookup "g1"
        = some { firstAttemptCorrect := false, attempts := 2, concept := "vlan tagging" } := by
  decide

/-- C2 amended: an outcome record, once stored for a group, is never
replaced or modified by any later check-answer response handled through
the quiz submit path (the write is guarded by
`if (!quizState.scores[currentGroup.group_id])`), and the
more-from-this-concept fetch itself never touches the outcome map; only
unguarded drag-and-drop completion messages can overwrite it. -/
theorem C2_theorem (g : Quiz.ConceptGroup) (d : Quiz.SubmitData) (s : Quiz.State)
    (ui : Quiz.UI) (out : Quiz.Outcome)
    (h : s.scores.lookup g.group_id = some out) :
    ((Quiz.submitAnswerThen g d s ui).1.scores.lookup g.group_id = some out)
    ∧ (∀ (dm : Quiz.MoreData) (r : Quiz.State × Quiz.UI × Bool × List String),
        Quiz.loadMoreFromConceptThen dm s ui = some r → r.1.scores = s.scores) := by
  constructor
  · cases d with
    | error msg => simpa [Quiz.submitAnswerThen] using h
    | correct e more => simp [Quiz.submitAnswerThen, h]
    | incorrect hint a => simpa [Quiz.submitAnswerThen] using h
  · intro dm r hr
    unfold Quiz.loadMoreFromConceptThen at hr
    split at hr
    · cases hr
    · cases dm with
      | errorAllCovered msg =>
          simp only [Option.map_eq_some'] at hr
          obtain ⟨r', hr', rfl⟩ := hr
          exact nextTopic_scores r' hr'
      | error msg =>
          cases hr
          rfl
      | success q =>
          simp only [Option.map_eq_some'] at hr
          obtain ⟨r', hr', rfl⟩ := hr
          have hs := displayCurrentQuestion_scores r' hr'
          exact hs

/-- C2 witness: with the first-attempt outcome for `g1` already stored, a
later correct submit response leaves the stored record intact. -/
theorem C2_witness :
    (Quiz.submitAnswerThen c2Group (.correct "done" 0) c2State1 c2UI).1.scores.lookup "g1"
      = some { firstAttemptCorrect := true, attempts := 1, concept := "vlan tagging" } :=
  (C2_theorem c2Group (.correct "done" 0) c2State1 c2UI
    { firstAttemptCorrect := true, attempts := 1, concept := "vlan tagging" } (by decide)).1

/-- A first concept group (its drag-and-drop question id is 7). -/
def c3Group1 : Quiz.ConceptGroup :=
  { group_id := "g1", concept := "stp roles",
    question :=
      { id := 7, question_text := "match the roles", choices := [],
        multi_answer := false, correct_answer := none,
        dtype := some "drag_drop", question_type := none },
    seen_questions := none }

/-- The group the session has already advanced to. -/
def c3Group2 : Quiz.ConceptGroup :=
  { group_id := "g2", concept := "stp timers",
    question :=
      { id := 8, question_text := "pick one", choices := [("a", "A"), ("b", "B")],
        multi_answer := false, correct_answer := some "a",
        dtype := none, question_type := none },
    seen_questions := none }

/-- A quiz session that has advanced past `c3Group1` to `c3Group2`
(cursor 1), with no outcome recorded for either group. -/
def c3State : Quiz.State :=
  { sessionId := some "s1", protocol := some "stp",
    conceptGroups := [c3Group1, c3Group2],
    currentIndex := 1, attemptNumber := 1, scores := [], totalConcepts := 2,
    dragDropWindow := some true, dragDropQuestions := [7] }

/-- The quiz page showing `c3Group2`. -/
def c3UI : Quiz.UI :=
  { choices := [⟨"a", false, false⟩, ⟨"b", false, false⟩],
    submitHidden := false, tryAgainHidden := true, moreConceptHidden := true,
    nextTopicHidden := true, feedbackHidden := true }

/-- C3 counterexample: a stale completion message for question 7 — which
belongs to the already-left group `g1` — arrives with `correct = true`
while `g2` is current.  `handleDragDropMessage` never compares the
message's `questionId` with the current group, so it records a bogus
first-attempt-correct outcome for `g2` instead of leaving the session
unchanged. -/
theorem C3_counterexample :
    c3State.scores.lookup "g2" = none
    ∧ (Quiz.handleDragDropMessage ⟨true, true, 7⟩ c3State c3UI).1.scores.lookup "g2"
        = some { firstAttemptCorrect := true, attempts := 1, concept := "stp timers" }
    ∧ Quiz.handleDragDropMessage ⟨true, true, 7⟩ c3State c3UI ≠ (c3State, c3UI) := by
  decide

/-- C3 amended: a completion message leaves the session state unchanged
only when the session has no current group at all (the cursor is past the
last group) — `handleDragDropMessage` returns at
`if (!currentGroup) return`; a stale message arriving while any later
group is current is instead applied to that current group. -/
theorem C3_theorem (msg : Quiz.DragDropMessage) (s : Quiz.State) (ui : Quiz.UI)
    (h : s.conceptGroups.length ≤ s.currentIndex) :
    Quiz.handleDragDropMessage msg s ui = (s, ui) := by
  have hnone : s.conceptGroups.get? s.currentIndex = none := List.get?_eq_none.mpr h
  rw [List.get?_eq_getElem?] at hnone
  unfold Quiz.handleDragDropMessage
  cases hb : msg.isDragDropComplete <;> simp [hb, hnone]

/-- A session whose cursor has run past its single group. -/
def c3DoneState : Quiz.State :=
  { sessionId := some "s1", protocol := some "stp", conceptGroups := [c3Group1],
    currentIndex := 1, attemptNumber := 1, scores := [], totalConcepts := 1,
    dragDropWindow := some true, dragDropQuestions := [7] }

/-- C3 witness: a late completion message after the session has run past
its last group is ignored. -/
theorem C3_witness :
    Quiz.handleDragDropMessage ⟨true, true, 7⟩ c3DoneState c3UI = (c3DoneState, c3UI) :=
  C3_theorem ⟨true, true, 7⟩ c3DoneState c3UI (by decide)

/-- C4 amended: on the practice page, every choice whose letter is in the
engine's `disabledChoices` record keeps its disabled flag (only its
checked state is cleared) across `tryAgain`, and presenting a new
question re-enables and unchecks every choice; on the quiz page, however,
`tryAgain` re-enables every choice unconditionally, so a choice disabled
after a wrong submission does not stay disabled across a retry. -/
theorem C4_theorem (s : Practice.State) (ui : Practice.UI) (i : Nat) (c : ChoiceUI)
    (h : ui.choices.get? i = some c)
    (hd : s.disabledChoices.contains c.letter = true) :
    ((Practice.tryAgain s ui).2.choices.get? i = some { c with checked := false })
    ∧ (∀ (q : Practice.Question) (s₂ : Practice.State),
        ((Practice.displayQuestion q s₂).2.choices.all
          (fun c' => !c'.disabled && !c'.checked)) = true)
    ∧ (∀ (s₃ : Quiz.State) (ui₃ : Quiz.UI),
        ((Quiz.tryAgain s₃ ui₃).2.choices.all (fun c' => !c'.disabled)) = true) := by
  refine ⟨?_, ?_, ?_⟩
  · simp only [Practice.tryAgain, List.get?_map, h, Option.map_some', hd, if_true]
  · intro q s₂
    simp only [Practice.displayQuestion, renderChoices, List.all_eq_true, List.mem_map]
    rintro c' ⟨p, -, rfl⟩
    rfl
  · intro s₃ ui₃
    simp [Quiz.tryAgain, List.all_eq_true]

/-- The single-select quiz question used for the C4 scenario. -/
def c4Group : Quiz.ConceptGroup :=
  { group_id := "g1", concept := "ospf areas",
    question :=
      { id := 11, question_text := "pick one",
        choices := [("a", "A"), ("b", "B"), ("c", "C")],
        multi_answer := false, correct_answer := some "a",
        dtype := none, question_type := none },
    seen_questions := none }

/-- A quiz session showing `c4Group`. -/
def c4State : Quiz.State :=
  { sessionId := some "s1", protocol := some "ospf", conceptGroups := [c4Group],
    currentIndex := 0, attemptNumber := 1, scores := [], totalConcepts := 1,
    dragDropWindow := none, dragDropQuestions := [] }

/-- The rendered choices with the (wrong) choice `b` ticked. -/
def c4UI0 : Quiz.UI :=
  { choices := [⟨"a", false, false⟩, ⟨"b", true, false⟩, ⟨"c", false, false⟩],
    submitHidden := false, tryAgainHidden := true, moreConceptHidden := true,
    nextTopicHidden := true, feedbackHidden := true }

/-- The quiz page while the wrong submission of `b` is in flight: every
input disabled. -/
def c4UIinflight : Quiz.UI :=
  { c4UI0 with
    choices := [⟨"a", false, true⟩, ⟨"b", true, true⟩, ⟨"c", false, true⟩] }

/-- The quiz page after the incorrect response for `b` was handled. -/
def c4UIwrong : Quiz.UI :=
  (Quiz.submitAnswerThen c4Group (.incorrect "not b" 1) c4State c4UIinflight).2.1

/-- C4 counterexample: on the quiz page the choice `b` is disabled after
its wrong submission (still disabled when the incorrect response has been
handled), yet `tryAgain` on the very same question re-enables it — it
does not stay disabled through the retry. -/
theorem C4_counterexample :
    Quiz.submitAnswer c4State c4UI0 =
      some (c4State, c4UIinflight,
        some { session_id := some "s1", question_id := 11, student_answer := "b",
               attempt_number := 1, group_id := "g1" }, [])
    ∧ c4UIwrong.choices.get? 1 = some ⟨"b", true, true⟩
    ∧ (Quiz.tryAgain (Quiz.submitAnswerThen c4Group (.incorrect "not b" 1) c4State c4UIinflight).1
         c4UIwrong).2.choices.get? 1 = some ⟨"b", false, false⟩ := by
  decide

/-- A practice-page state whose engine has recorded choice `b` as
disabled after a wrong attempt. -/
def c4PracticeState : Practice.State :=
  { Practice.initialState with
    currentQuestion := some c1Question, attemptNumber := 1,
    disabledChoices := ["b"] }

/-- The practice page after the wrong attempt: all inputs disabled, `b`
greyed out. -/
def c4PracticeUI : Practice.UI :=
  { choices := [⟨"a", false, true⟩, ⟨"b", false, true⟩, ⟨"c", false, true⟩, ⟨"d", false, true⟩],
    submitHidden := true, submitDisabled := false, skipHidden := true,
    tryAgainHidden := false, revealHidden := true, nextHidden := true,
    loadingHidden := true, feedbackHidden := false }

/-- C4 witness: on the practice page, the recorded-disabled choice `b`
stays disabled across `tryAgain`. -/
theorem C4_witness :
    (Practice.tryAgain c4PracticeState c4PracticeUI).2.choices.get? 1
      = some ⟨"b", false, true⟩ :=
  (C4_theorem c4PracticeState c4PracticeUI 1 ⟨"b", false, true⟩ (by decide) (by decide)).1

/-- Question 1 of the C5 linear session. -/
def c5q1 : Practice.Question :=
  { id := "q1", question_number := 1, question_text := "first",
    choices := [("a", "A"), ("b", "B")], multi_answer := false }

/-- Question 2 of the C5 linear session. -/
def c5q2 : Practice.Question :=
  { id := "q2", question_number := 2, question_text := "second",
    choices := [("a", "A"), ("b", "B")], multi_answer := false }

/-- Question 3 of the C5 linear session. -/
def c5q3 : Practice.Question :=
  { id := "q3", question_number := 3, question_text := "third",
    choices := [("a", "A"), ("b", "B")], multi_answer := false }

/-- The complete Scenario-A trace of the linear practice session, ending
in the three client counters (correct, incorrect, skipped): display Q1,
tick `a`, submit, receive a correct verdict, fetch the next question Q2,
skip it (the skip response delivers Q3), tick `b` on Q3, submit, receive
an incorrect verdict, then reveal and receive the explanation.  `none`
would indicate a step that the code cannot execute. -/
def c5Trace : Option (Nat × Nat × Nat) :=
  let s0 := { Practice.initialState with protocolSlug := "ospf", totalQuestions := 3 }
  let st1 := Practice.displayQuestion c5q1 s0
  (Practice.submitAnswer st1.1 (Practice.clickChoice false "a" st1.2)).bind (fun r1 =>
    let v1 := Practice.submitAnswerThen (.correct "yes" "a") r1.1 r1.2.1
    let n1 := Practice.nextQuestionThen (.next c5q2) v1.1 v1.2
    (Practice.skipQuestion n1.1 n1.2.1).bind (fun r2 =>
      let k1 := Practice.skipQuestionThen (.next 3 c5q3) r2.1 r2.2.1
      (Practice.submitAnswer k1.1 (Practice.clickChoice false "b" k1.2.1)).bind (fun r3 =>
        let v3 := Practice.submitAnswerThen (.incorrect 1 true (some ["b"]) "hint") r3.1 r3.2.1
        (Practice.revealAnswer v3.1 v3.2).map (fun r4 =>
          let rv := Practice.revealAnswerThen (.success "a" "Answer A" "because") r4.1 r4.2.1
          (rv.1.correctCount, rv.1.incorrectCount, rv.1.skippedCount)))))

/-- C5: in the Scenario-A linear session — Q1 correct on the first try,
Q2 skipped, Q3 answered wrong and then revealed — the client counters end
at correct = 1, incorrect = 1 (the reveal increments the incorrect
counter) and skipped = 1. -/
theorem C5_theorem : c5Trace = some (1, 1, 1) := by
  decide

/-- C6: every more-from-this-concept request carries the engine's record
of already-seen question ids of the current group as the `exclude` list;
when the collaborator answers that the group is exhausted (`all_covered`
error), the engine advances the cursor to the next group — the only
message surfaced is the coverage acknowledgment, not an error; and a
successful response appends the freshly delivered question id to the
group's seen list, so the next request excludes it as well. -/
theorem C6_theorem (s : Quiz.State) (ui : Quiz.UI) (g : Quiz.ConceptGroup)
    (hg : s.conceptGroups.get? s.currentIndex = some g) :
    (Quiz.loadMoreFromConcept s =
      some { group_id := g.group_id, session_id := s.sessionId,
             exclude := g.seen_questions.getD [] })
    ∧ (∀ (msg : String) (r : Quiz.State × Quiz.UI × Bool × List String),
        Quiz.loadMoreFromConceptThen (.errorAllCovered msg) s ui = some r →
        r.1.currentIndex = s.currentIndex + 1
          ∧ r.2.2.2 = ["You have answered all questions in this concept group!"])
    ∧ (∀ (q : Quiz.Question) (r : Quiz.State × Quiz.UI × Bool × List String),
        Quiz.loadMoreFromConceptThen (.success q) s ui = some r →
        (r.1.conceptGroups.get? s.currentIndex).map (fun g' => g'.seen_questions)
          = some (some (g.seen_questions.getD [] ++ [q.id]))) := by
  refine ⟨?_, ?_, ?_⟩
  · have hg' := hg
    rw [List.get?_eq_getElem?] at hg'
    simp [Quiz.loadMoreFromConcept, hg']
  · intro msg r hr
    unfold Quiz.loadMoreFromConceptThen at hr
    rw [hg] at hr
    simp only [Option.map_eq_some'] at hr
    obtain ⟨r', hr', rfl⟩ := hr
    exact ⟨(nextTopic_frame r' hr').2.1, rfl⟩
  · intro q r hr
    unfold Quiz.loadMoreFromConceptThen at hr
    rw [hg] at hr
    simp only [Option.map_eq_some'] at hr
    obtain ⟨r', hr', rfl⟩ := hr
    have hlt : s.currentIndex < s.conceptGroups.length := by
      by_contra hle
      rw [List.get?_eq_none.mpr (Nat.le_of_not_lt hle)] at hg
      cases hg
    have hset := (displayCurrentQuestion_frame r' hr').2.2
    rw [hset, List.get?_set_eq_of_lt _ hlt]
    rfl

/-- A concept group that has already delivered the alternative question
17 besides its current representative. -/
def c6Group : Quiz.ConceptGroup :=
  { group_id := "g1", concept := "bgp attributes",
    question :=
      { id := 17, question_text := "pick one", choices := [("a", "A"), ("b", "B")],
        multi_answer := false, correct_answer := some "a",
        dtype := none, question_type := none },
    seen_questions := some [17] }

/-- A second, well-formed group for the session to advance to. -/
def c6Group2 : Quiz.ConceptGroup :=
  { group_id := "g2", concept := "bgp states",
    question :=
      { id := 18, question_text := "pick one", choices := [("a", "A"), ("b", "B")],
        multi_answer := false, correct_answer := some "b",
        dtype := none, question_type := none },
    seen_questions := none }

/-- A quiz session currently at `c6Group`. -/
def c6State : Quiz.State :=
  { sessionId := some "s1", protocol := some "bgp",
    conceptGroups := [c6Group, c6Group2],
    currentIndex := 0, attemptNumber := 1, scores := [], totalConcepts := 2,
    dragDropWindow := none, dragDropQuestions := [] }

/-- C6 witness: the request for more questions from `c6Group` carries its
seen list `[17]` as the exclusion list. -/
theorem C6_witness :
    Quiz.loadMoreFromConcept c6State =
      some { group_id := "g1", session_id := some "s1", exclude := [17] } :=
  (C6_theorem c6State
    { choices := [], submitHidden := true, tryAgainHidden := true,
      moreConceptHidden := true, nextTopicHidden := false, feedbackHidden := false }
    c6Group (by decide)).1

/-- C7 amended: on the practice page, whenever `submitAnswer` issues a
check-answer request it simultaneously disables every answer input and
hides the submit (and skip) buttons, so no second submission can be
started while the round-trip is in flight; the quiz page disables every
input too, but leaves its submit button visible and enabled until the
response arrives. -/
theorem C7_theorem (s : Practice.State) (ui : Practice.UI)
    (r : Practice.State × Practice.UI × Option Practice.CheckRequest)
    (req : Practice.CheckRequest)
    (h : Practice.submitAnswer s ui = some r) (hreq : r.2.2 = some req) :
    (r.2.1.choices.all (fun c => c.disabled)) = true
    ∧ r.2.1.submitHidden = true ∧ r.2.1.skipHidden = true
    ∧ (∀ (sq : Quiz.State) (uiq : Quiz.UI)
        (rq : Quiz.State × Quiz.UI × Option Quiz.SubmitRequest × List String)
        (reqq : Quiz.SubmitRequest),
        Quiz.submitAnswer sq uiq = some rq → rq.2.2.1 = some reqq →
        ((rq.2.1.choices.all (fun c => c.disabled)) = true
          ∧ rq.2.1.submitHidden = uiq.submitHidden)) := by
  have hpractice : (r.2.1.choices.all (fun c => c.disabled)) = true
      ∧ r.2.1.submitHidden = true ∧ r.2.1.skipHidden = true := by
    unfold Practice.submitAnswer at h
    split at h
    · cases h
    · dsimp only [] at h
      repeat' split at h
      all_goals
        first
          | (cases h; cases hreq; done)
          | (cases h;
             refine ⟨?_, rfl, rfl⟩;
             simp only [List.all_eq_true, List.mem_map];
             rintro c ⟨c', -, rfl⟩;
             rfl)
  refine ⟨hpractice.1, hpractice.2.1, hpractice.2.2, ?_⟩
  intro sq uiq rq reqq hq hqreq
  unfold Quiz.submitAnswer at hq
  dsimp only [] at hq
  split at hq
  · cases hq
    cases hqreq
  · split at hq
    · cases hq
    · split at hq
      · cases hq
      · split at hq
        · cases hq
          cases hqreq
        · cases hq
          refine ⟨?_, rfl⟩
          simp [List.all_eq_true]

/-- C7 counterexample: on the quiz page, while the submission of choice
`b` is in flight the submit button is still visible and enabled
(`submitBtn` is only hidden inside the response callback), and the inputs
— though disabled — still count as checked, so clicking submit again
starts a second identical check-answer request for the same question
before the first response is handled. -/
theorem C7_counterexample :
    Quiz.submitAnswer c4State c4UI0 =
      some (c4State, c4UIinflight,
        some { session_id := some "s1", question_id := 11, student_answer := "b",
               attempt_number := 1, group_id := "g1" }, [])
    ∧ c4UIinflight.submitHidden = false
    ∧ Quiz.submitAnswer c4State c4UIinflight =
      some (c4State, c4UIinflight,
        some { session_id := some "s1", question_id := 11, student_answer := "b",
               attempt_number := 1, group_id := "g1" }, []) := by
  decide

/-- The practice page of `c1Question` with boxes `a` and `c` ticked. -/
def c7UI : Practice.UI :=
  Practice.clickChoice true "c"
    (Practice.clickChoice true "a" (Practice.displayQuestion c1Question Practice.initialState).2)

/-- C7 witness: submitting `a,c` on the practice page locks every input
and hides submit and skip for the duration of the round-trip. -/
theorem C7_witness :
    ((Practice.submitAnswer c1State c7UI).elim true (fun r => r.2.1.choices.all (fun c => c.disabled))) = true := by
  have h : Practice.submitAnswer c1State c7UI =
      some (c1State,
        { choices := [⟨"a", true, true⟩, ⟨"b", false, true⟩, ⟨"c", true, true⟩, ⟨"d", false, true⟩],
          submitHidden := true, submitDisabled := false, skipHidden := true,
          tryAgainHidden := true, revealHidden := true, nextHidden := true,
          loadingHidden := false, feedbackHidden := true },
        some { question_id := "p7", selected_answer := "a,c" }) := by decide
  rw [h]
  exact (C7_theorem c1State c7UI _ { question_id := "p7", selected_answer := "a,c" } h rfl).1

/-- C9: `restartQuiz` resets the cursor to 0, clears the outcome map, the
session id, the protocol, the concept groups, the attempt number (back to
its initial 1) and the popup handle, while keeping the already-fetched
drag-and-drop question catalog exactly as it was. -/
theorem C9_theorem (s : Quiz.State) :
    (Quiz.restartQuiz s).currentIndex = 0
    ∧ (Quiz.restartQuiz s).scores = []
    ∧ (Quiz.restartQuiz s).sessionId = none
    ∧ (Quiz.restartQuiz s).protocol = none
    ∧ (Quiz.restartQuiz s).conceptGroups = []
    ∧ (Quiz.restartQuiz s).attemptNumber = 1
    ∧ (Quiz.restartQuiz s).dragDropWindow = none
    ∧ (Quiz.restartQuiz s).dragDropQuestions = s.dragDropQuestions :=
  ⟨rfl, rfl, rfl, rfl, rfl, rfl, rfl, rfl⟩

/-- C10: on the practice page, handling an incorrect (non-reveal)
check-answer response leaves all three counters untouched; only a
successfully completed reveal increments the incorrect counter (a failed
reveal fetch changes nothing); a skip increments only the skipped
counter and an error response leaves the state as it was — so a question
answered wrong and then skipped is counted only as skipped. -/
theorem C10_theorem :
    (∀ (a : Nat) (cr : Bool) (dc : Option (List String)) (fb : String)
       (s : Practice.State) (ui : Practice.UI),
      (Practice.submitAnswerThen (.incorrect a cr dc fb) s ui).1.correctCount = s.correctCount
      ∧ (Practice.submitAnswerThen (.incorrect a cr dc fb) s ui).1.incorrectCount = s.incorrectCount
      ∧ (Practice.submitAnswerThen (.incorrect a cr dc fb) s ui).1.skippedCount = s.skippedCount)
    ∧ (∀ (m : String) (s : Practice.State) (ui : Practice.UI),
      (Practice.submitAnswerThen (.error m) s ui).1 = s)
    ∧ (∀ (ca cat fb : String) (s : Practice.State) (ui : Practice.UI),
      (Practice.revealAnswerThen (.success ca cat fb) s ui).1.incorrectCount = s.incorrectCount + 1
      ∧ (Practice.revealAnswerThen (.success ca cat fb) s ui).1.correctCount = s.correctCount
      ∧ (Practice.revealAnswerThen (.success ca cat fb) s ui).1.skippedCount = s.skippedCount)
    ∧ (∀ (m : String) (s : Practice.State) (ui : Practice.UI),
      (Practice.revealAnswerThen (.error m) s ui).1 = s)
    ∧ (∀ (t : Nat) (q : Practice.Question) (s : Practice.State) (ui : Practice.UI),
      (Practice.skipQuestionThen (.next t q) s ui).1.skippedCount = s.skippedCount + 1
      ∧ (Practice.skipQuestionThen (.next t q) s ui).1.correctCount = s.correctCount
      ∧ (Practice.skipQuestionThen (.next t q) s ui).1.incorrectCount = s.incorrectCount)
    ∧ (∀ (s : Practice.State) (ui : Practice.UI),
      (Practice.skipQuestionThen .done s ui).1.skippedCount = s.skippedCount + 1
      ∧ (Practice.skipQuestionThen .done s ui).1.correctCount = s.correctCount
      ∧ (Practice.skipQuestionThen .done s ui).1.incorrectCount = s.incorrectCount)
    ∧ (∀ (m : String) (s : Practice.State) (ui : Practice.UI),
      (Practice.skipQuestionThen (.error m) s ui).1 = s) :=
  ⟨fun _ _ _ _ _ _ => ⟨rfl, rfl, rfl⟩,
   fun _ _ _ => rfl,
   fun _ _ _ _ _ => ⟨rfl, rfl, rfl⟩,
   fun _ _ _ => rfl,
   fun _ _ _ _ => ⟨rfl, rfl, rfl⟩,
   fun _ _ => ⟨rfl, rfl, rfl⟩,
   fun _ _ _ => rfl⟩

end Claims
